import Mathlib

/-!
Shallow embedding of `src/main.py` (ulauncher-tailscale): a launcher
extension that caches the node list obtained from
`tailscale status --json` for `_cache_duration` seconds and renders a
fuzzy-filtered result list, with a connect/disconnect toggle row.

External effects are passed in explicitly: each operation receives the
outcome of the subprocess call it may perform and the current clock value,
and returns (besides its result and the updated extension state) the list
of external commands it invoked, so that invocation counts can be stated.
Python float timestamps are modelled as `Int` (every arithmetic comparison
of the source is preserved verbatim); a Python exception escaping a
function uncaught is modelled with `Except`.
-/

/-- A normalized node entry, mirroring the `TailscaleNode` TypedDict
(`src/main.py` lines 16-19). -/
structure TailscaleNode where
  hostname : String
  ipv4 : String
  online : Bool
deriving Repr, DecidableEq

/-- One record of the parsed `tailscale status --json` output: the
`HostName` string, the `TailscaleIPs` address list and the `Online` flag
(the fields read by `add_node`, `src/main.py` lines 45-54). -/
structure RawNode where
  hostName : String
  tailscaleIPs : List String
  online : Bool
deriving Repr, DecidableEq

/-- The parsed JSON status document: the `Self` record and the `Peer`
records in dictionary-value order (`src/main.py` lines 65-70). -/
structure StatusJson where
  self : RawNode
  peers : List RawNode
deriving Repr, DecidableEq

/-- Outcome of one `subprocess.run(["tailscale", "status", "--json"],
capture_output=True, text=True, check=True)` followed by `json.loads`:
success with a parsed document, a non-zero exit (`CalledProcessError`),
unparsable stdout (`JSONDecodeError`), or a missing binary
(`FileNotFoundError`). -/
inductive StatusRun where
  | ok (status : StatusJson)
  | calledProcessError
  | jsonDecodeError
  | fileNotFoundError
deriving Repr, DecidableEq

/-- Outcome of one `subprocess.run(["tailscale", "up"/"down"], check=True)`. -/
inductive CmdRun where
  | ok
  | calledProcessError
  | fileNotFoundError
deriving Repr, DecidableEq

/-- The external commands the extension can invoke; operations report a
trace of these so invocation counts can be stated. -/
inductive Cmd where
  | statusJson
  | up
  | down
deriving Repr, DecidableEq

/-- A Python exception escaping an operation uncaught. -/
inductive PyError where
  | fileNotFoundError
deriving Repr, DecidableEq

/-- The mutable extension state set up in `__init__` (`src/main.py` lines
27-30): `_cache_nodes`, `_cache_timestamp`, `_cache_duration`, `online`. -/
structure ExtState where
  cache_nodes : List TailscaleNode
  cache_timestamp : Int
  cache_duration : Int
  online : Bool
deriving Repr, DecidableEq

/-- The `on_enter` action of a result item:
`ExtensionCustomAction({"action": "toggle", "query": query}, True)` for
the status row, `CopyToClipboardAction(ipv4)` for a node row. -/
inductive ItemAction where
  | customToggle (query : Option String)
  | copyToClipboard (value : String)
deriving Repr, DecidableEq

/-- An `ExtensionResultItem` as constructed in `render`
(`src/main.py` lines 120-136). -/
structure ExtensionResultItem where
  icon : String
  name : String
  description : String
  on_enter : ItemAction
  keyword : String
deriving Repr, DecidableEq

/-- Python `"." in ip`: the address string contains a dot character. -/
def hasDot (ip : String) : Bool :=
  ip.toList.any (fun c => c = '.')

/-- The `add_node` helper (`src/main.py` lines 45-54): normalizes a raw
record, selecting as `ipv4` the first address containing a dot
(`next((ip for ip in node["TailscaleIPs"] if "." in ip), "")`), or the
empty string when none exists. -/
def add_node (node : RawNode) : TailscaleNode :=
  { hostname := node.hostName
    ipv4 := (node.tailscaleIPs.find? hasDot).getD ""
    online := node.online }

/-- `TailscaleExtension._list_nodes` (`src/main.py` lines 33-74): run the
status command; on success return the normalized self node followed by the
peer nodes, updating `self.online` from the self record; on
`CalledProcessError`, `JSONDecodeError` or `FileNotFoundError` return the
empty list with the state unchanged.  No exception escapes: all three
failure outcomes are caught, so the embedding is a total function. -/
def _list_nodes (run : StatusRun) (s : ExtState) :
    List TailscaleNode × ExtState × List Cmd :=
  match run with
  | .ok st =>
      (add_node st.self :: st.peers.map add_node,
       { s with online := st.self.online }, [Cmd.statusJson])
  | _ => ([], s, [Cmd.statusJson])

/-- `TailscaleExtension.list_nodes` (`src/main.py` lines 76-87): serve the
cached list while `current_time - self._cache_timestamp <
self._cache_duration`, otherwise refresh via `_list_nodes`, store the
result and set `_cache_timestamp = now`. -/
def list_nodes (now : Int) (run : StatusRun) (s : ExtState) :
    List TailscaleNode × ExtState × List Cmd :=
  if now - s.cache_timestamp < s.cache_duration then
    (s.cache_nodes, s, [])
  else
    let r := _list_nodes run s
    (r.1, { r.2.1 with cache_nodes := r.1, cache_timestamp := now }, r.2.2)

/-- `TailscaleExtension.check_online` (`src/main.py` lines 102-114): on
success set `self.online` from the self record and fall off the end
(Python returns `None`); on any of the three caught exceptions return
`False`, leaving the `online` flag at its previous value. -/
def check_online (run : StatusRun) (s : ExtState) :
    Option Bool × ExtState × List Cmd :=
  match run with
  | .ok st => (none, { s with online := st.self.online }, [Cmd.statusJson])
  | _ => (some false, s, [Cmd.statusJson])

/-- Lines 90-99 of `TailscaleExtension.handle_toggle_action`: run
`tailscale down` when `self.online` else `tailscale up`, catching only
`subprocess.CalledProcessError` (so a `FileNotFoundError` raised when the
binary is absent escapes), then `time.sleep(1)` and `check_online`.
Returns the resulting state (or the escaping exception) and the trace of
command invocations; the up/down invocation attempt is recorded even when
it raises. -/
def toggleStep (cmdRun : CmdRun) (statusRun : StatusRun) (s : ExtState) :
    Except PyError ExtState × List Cmd :=
  let cmd : Cmd := if s.online then Cmd.down else Cmd.up
  match cmdRun with
  | .fileNotFoundError => (Except.error PyError.fileNotFoundError, [cmd])
  | _ =>
      let c := check_online statusRun s
      (Except.ok c.2.1, cmd :: c.2.2)

/-- A query matches a keyword when every query character occurs in the
keyword in order (not necessarily contiguously). -/
def isSubseqChars : List Char → List Char → Bool
  | [], _ => true
  | _ :: _, [] => false
  | c :: cs, d :: ds =>
      if c = d then isSubseqChars cs ds else isSubseqChars (c :: cs) ds

/-- Number of leading keyword characters consumed by a greedy left-to-right
subsequence match of the query; `none` when the query does not match. -/
def consumeLen : List Char → List Char → Option Nat
  | [], _ => some 0
  | _ :: _, [] => none
  | c :: cs, d :: ds =>
      if c = d then (consumeLen cs ds).map (· + 1)
      else (consumeLen (c :: cs) ds).map (· + 1)

/-- Length of the most compact keyword window containing the query as a
subsequence (`none` when no match): the minimum greedy match length over
all suffixes of the keyword. -/
def minWindow (q : List Char) : List Char → Option Nat
  | [] => if q.isEmpty then some 0 else none
  | d :: ds =>
      match consumeLen q (d :: ds), minWindow q ds with
      | some a, some b => some (min a b)
      | some a, none => some a
      | none, o => o

/-- Modelled from the spec: the external `fuzzyfinder` library called at
`src/main.py` line 144 is not part of this repository; spec section 4.2
says the matcher may be reimplemented as "filter candidates whose keyword
contains the query as a subsequence, order by match compactness then by
original order".  Insertion sort on the compactness score is stable, so
ties keep the original order. -/
def fuzzyfinder (query : String) (items : List ExtensionResultItem) :
    List ExtensionResultItem :=
  List.insertionSort
    (fun a b => (minWindow query.toList a.keyword.toList).getD 0 ≤
                (minWindow query.toList b.keyword.toList).getD 0)
    (items.filter (fun it => isSubseqChars query.toList it.keyword.toList))

/-- Python list slicing `xs[:stop]`: a non-negative stop takes the first
`stop` elements; a negative stop drops the last `-stop` elements. -/
def pySliceTo {α : Type} (stop : Int) (xs : List α) : List α :=
  if 0 ≤ stop then xs.take stop.toNat
  else xs.take (xs.length - (-stop).toNat)

/-- The synthetic status row (`src/main.py` lines 120-128): icon and label
reflect the `online` flag; activation carries the query for the re-render. -/
def statusItem (online : Bool) (query : Option String) : ExtensionResultItem :=
  { icon := if online then "images/online.png" else "images/offline.png"
    name := "Status"
    description := if online then "You\x27re Online" else "You\x27re Offline"
    on_enter := ItemAction.customToggle query
    keyword := "status" }

/-- A node row (`src/main.py` lines 130-136): the label is the hostname,
suffixed " (offline)" when the node is offline; activation copies the
ipv4 to the clipboard. -/
def nodeItem (node : TailscaleNode) : ExtensionResultItem :=
  { icon := "images/tailscale.png"
    name := node.hostname ++ (if node.online then "" else " (offline)")
    description := node.ipv4
    on_enter := ItemAction.copyToClipboard node.ipv4
    keyword := node.hostname }

/-- The candidate list `all` built in `render` (`src/main.py` lines
119-138): the status row followed by one row per node from `list_nodes`.
The status row is built from `self.online` before `list_nodes` may refresh
the flag, matching Python evaluation order. -/
def renderAll (query : Option String) (now : Int) (run : StatusRun)
    (s : ExtState) : List ExtensionResultItem :=
  statusItem s.online query :: (list_nodes now run s).1.map nodeItem

/-- The candidates surviving the query (`src/main.py` lines 140-149): the
whole candidate list for an absent or empty query (Python `if not query`),
otherwise the `fuzzyfinder` selection. -/
def renderPool (query : Option String) (now : Int) (run : StatusRun)
    (s : ExtState) : List ExtensionResultItem :=
  match query with
  | none => renderAll query now run s
  | some q =>
      if q = "" then renderAll query now run s
      else fuzzyfinder q (renderAll query now run s)

/-- `TailscaleExtension.render` (`src/main.py` lines 116-151).  `limit` is
`int(self.preferences.get("limit", "9"))`, passed in as a parameter; the
returned items are the pool truncated by Python slicing `[:limit]`. -/
def render (limit : Int) (query : Option String) (now : Int) (run : StatusRun)
    (s : ExtState) : List ExtensionResultItem × ExtState × List Cmd :=
  let r := list_nodes now run s
  (pySliceTo limit (renderPool query now run s), r.2.1, r.2.2)

/-- `TailscaleExtension.handle_toggle_action` (`src/main.py` lines 89-100):
the toggle step, then (after the 1-second sleep) a re-render at clock
`now`. -/
def handle_toggle_action (limit : Int) (query : Option String)
    (cmdRun : CmdRun) (statusRun : StatusRun) (now : Int)
    (fetchRun : StatusRun) (s : ExtState) :
    Except PyError (List ExtensionResultItem × ExtState) × List Cmd :=
  match toggleStep cmdRun statusRun s with
  | (Except.error e, tr) => (Except.error e, tr)
  | (Except.ok s1, tr) =>
      let r := render limit query now fetchRun s1
      (Except.ok (r.1, r.2.1), tr ++ r.2.2)

/-- `TailscaleExtension.__init__` (`src/main.py` lines 23-31): empty cache,
`_cache_timestamp = 0`, `_cache_duration = 10`, `online = False`, then one
`check_online`. -/
def initState (run : StatusRun) : ExtState × List Cmd :=
  let s0 : ExtState :=
    { cache_nodes := [], cache_timestamp := 0, cache_duration := 10,
      online := false }
  let c := check_online run s0
  (c.2.1, c.2.2)

/-- Concrete fixture: the "nas" node of the demo data in `src/main.py`. -/
def exNodeNas : TailscaleNode :=
  { hostname := "nas", ipv4 := "100.103.105.243", online := true }

/-- Concrete fixture: the "cloud-server" node of the demo data. -/
def exNodeCloud : TailscaleNode :=
  { hostname := "cloud-server", ipv4 := "100.72.94.105", online := true }

/-- Concrete fixture: a self record reported online. -/
def exRawSelf : RawNode :=
  { hostName := "laptop", tailscaleIPs := ["100.102.11.93"], online := true }

/-- Concrete fixture: a status document with an online self and no peers. -/
def exStatus : StatusJson := { self := exRawSelf, peers := [] }

/-- Concrete fixture: a state whose cache (nas, cloud-server) is fresh at
clock 100, currently online. -/
def exFreshState : ExtState :=
  { cache_nodes := [exNodeNas, exNodeCloud], cache_timestamp := 100,
    cache_duration := 10, online := true }

/-- Concrete fixture: like `exFreshState` but with the online flag off. -/
def exFreshOffState : ExtState :=
  { cache_nodes := [exNodeNas, exNodeCloud], cache_timestamp := 100,
    cache_duration := 10, online := false }

/-- Concrete fixture: a state whose cache has expired (timestamp 0 at
clock 100), currently offline. -/
def exStaleState : ExtState :=
  { cache_nodes := [exNodeNas], cache_timestamp := 0,
    cache_duration := 10, online := false }

/-- Concrete fixture: a fresh cache of five nodes for the limit examples. -/
def exFiveState : ExtState :=
  { cache_nodes :=
      [exNodeNas, exNodeCloud,
       { hostname := "laptop", ipv4 := "100.102.11.93", online := true },
       { hostname := "desktop", ipv4 := "100.96.204.133", online := true },
       { hostname := "raspberry-pi", ipv4 := "100.79.64.12", online := false }],
    cache_timestamp := 100, cache_duration := 10, online := true }

/-- Membership in the spec-modelled fuzzy filter is exactly membership in
the candidate list together with the subsequence condition. -/
theorem mem_fuzzyfinder (query : String) (items : List ExtensionResultItem)
    (it : ExtensionResultItem) :
    it ∈ fuzzyfinder query items ↔
      it ∈ items ∧ isSubseqChars query.toList it.keyword.toList = true := by
  unfold fuzzyfinder
  rw [List.mem_insertionSort, List.mem_filter]

/-- Python slicing with a negative stop keeps `length + stop` elements. -/
theorem pySliceTo_neg_length {α : Type} (stop : Int) (xs : List α)
    (h : stop < 0) :
    (pySliceTo stop xs).length = ((xs.length : Int) + stop).toNat := by
  unfold pySliceTo
  rw [if_neg (by omega)]
  rw [List.length_take]
  omega

/-- Claim C8: the selected `ipv4` field is the first address string of the
record's address list that contains a dot character, and the empty string
when no address contains a dot; in particular the list
`["fd7a:115c:a1e0::1", "100.64.0.1"]` yields `"100.64.0.1"` and a list
with only an IPv6-form address yields `""`. -/
theorem C8_ipv4_selection :
    (∀ node : RawNode,
      ((add_node node).ipv4 = "" ∧
        ∀ ip ∈ node.tailscaleIPs, hasDot ip = false) ∨
      (hasDot (add_node node).ipv4 = true ∧
        ∃ l₁ l₂, node.tailscaleIPs = l₁ ++ (add_node node).ipv4 :: l₂ ∧
          ∀ ip ∈ l₁, hasDot ip = false)) ∧
    (add_node
      { hostName := "h",
        tailscaleIPs := ["fd7a:115c:a1e0::1", "100.64.0.1"],
        online := true }).ipv4 = "100.64.0.1" ∧
    (add_node
      { hostName := "h", tailscaleIPs := ["fd7a:115c:a1e0::1"],
        online := false }).ipv4 = "" := by
  refine ⟨?_, by decide, by decide⟩
  intro node
  cases hf : node.tailscaleIPs.find? hasDot with
  | none =>
      left
      constructor
      · simp [add_node, hf]
      · intro ip hip
        simpa using List.find?_eq_none.mp hf ip hip
  | some ip =>
      right
      obtain ⟨hp, l₁, l₂, hsplit, hbefore⟩ := List.find?_eq_some.mp hf
      have hipv4 : (add_node node).ipv4 = ip := by simp [add_node, hf]
      rw [hipv4]
      refine ⟨hp, l₁, l₂, hsplit, ?_⟩
      intro a ha
      have := hbefore a ha
      simpa using this

/-- Claim C2: on every execution failure of the external status command
(command not found, non-zero exit, malformed JSON), the node fetch
`_list_nodes` returns the empty sequence and `check_online` returns
`False`.  Both functions catch exactly these three failure classes, so
their embeddings are total: no exception escapes either operation. -/
theorem C2_failures_swallowed (run : StatusRun) (s : ExtState)
    (h : ∀ st, run ≠ StatusRun.ok st) :
    (_list_nodes run s).1 = [] ∧ (check_online run s).1 = some false := by
  cases run with
  | ok st => exact absurd rfl (h st)
  | calledProcessError => exact ⟨rfl, rfl⟩
  | jsonDecodeError => exact ⟨rfl, rfl⟩
  | fileNotFoundError => exact ⟨rfl, rfl⟩

theorem C2_failures_swallowed_witness :
    (_list_nodes StatusRun.jsonDecodeError exStaleState).1 = [] ∧
    (check_online StatusRun.jsonDecodeError exStaleState).1 = some false :=
  C2_failures_swallowed StatusRun.jsonDecodeError exStaleState
    (fun _ h => StatusRun.noConfusion h)

/-- Claim C4 counterexample: `render` with `limit = -1` on a fresh cache
of two nodes returns a non-empty list (Python `all[:-1]` keeps all but the
last candidate), refuting "values ≤ 0 yield an empty result". -/
theorem C4_counterexample :
    (render (-1) none 100 StatusRun.calledProcessError exFreshState).1 ≠ [] := by
  decide

/-- Claim C4 amended: with `limit ≤ 0`, `render` follows Python slice
semantics: `limit = 0` yields the empty list, while a negative limit keeps
all but the last `-limit` surviving candidates, so the result length is
`(pool length + limit).toNat` — empty only when `-limit` is at least the
pool length. -/
theorem C4_amended (limit : Int) (query : Option String) (now : Int)
    (run : StatusRun) (s : ExtState) (h : limit ≤ 0) :
    (limit = 0 → (render limit query now run s).1 = []) ∧
    (limit < 0 → (render limit query now run s).1.length =
      (((renderPool query now run s).length : Int) + limit).toNat) := by
  constructor
  · intro h0
    subst h0
    show pySliceTo 0 (renderPool query now run s) = []
    unfold pySliceTo
    rw [if_pos (by omega)]
    simp
  · intro hneg
    show (pySliceTo limit (renderPool query now run s)).length = _
    exact pySliceTo_neg_length limit _ hneg

theorem C4_amended_witness :
    (render 0 none 100 StatusRun.calledProcessError exFreshState).1 = [] ∧
    (render (-1) none 100 StatusRun.calledProcessError exFreshState).1.length =
      (((renderPool none 100 StatusRun.calledProcessError exFreshState).length : Int) + (-1)).toNat :=
  ⟨(C4_amended 0 none 100 StatusRun.calledProcessError exFreshState
      (by decide)).1 rfl,
   (C4_amended (-1) none 100 StatusRun.calledProcessError exFreshState
      (by decide)).2 (by decide)⟩

/-- Claim C5 counterexample: at clock 5 with `fetched_at = 0` the cache
check `5 - 0 < 10` passes, so `list_nodes` serves the cached (empty)
sequence and performs no external fetch — `fetched_at = 0` is *not*
treated as expired for every clock value. -/
theorem C5_counterexample :
    (list_nodes 5 (StatusRun.ok exStatus)
        (initState StatusRun.jsonDecodeError).1).2.2.count Cmd.statusJson = 0 ∧
    (list_nodes 5 (StatusRun.ok exStatus)
        (initState StatusRun.jsonDecodeError).1).1 = [] := by decide

/-- Claim C5 amended: for every clock value `now` at least the TTL,
`fetched_at = 0` is treated as expired: `list_nodes` performs exactly one
external fetch, returns the freshly fetched sequence and stamps the cache
with `now`. -/
theorem C5_amended (now : Int) (run : StatusRun) (s : ExtState)
    (h0 : s.cache_timestamp = 0) (h : s.cache_duration ≤ now) :
    (list_nodes now run s).2.2.count Cmd.statusJson = 1 ∧
    (list_nodes now run s).1 = (_list_nodes run s).1 ∧
    (list_nodes now run s).2.1.cache_timestamp = now := by
  unfold list_nodes
  rw [if_neg (by omega)]
  refine ⟨?_, rfl, rfl⟩
  cases run <;> rfl

theorem C5_amended_witness :
    (list_nodes 10 (StatusRun.ok exStatus)
        (initState StatusRun.jsonDecodeError).1).2.2.count Cmd.statusJson = 1 ∧
    (list_nodes 10 (StatusRun.ok exStatus)
        (initState StatusRun.jsonDecodeError).1).1 =
      (_list_nodes (StatusRun.ok exStatus)
        (initState StatusRun.jsonDecodeError).1).1 ∧
    (list_nodes 10 (StatusRun.ok exStatus)
        (initState StatusRun.jsonDecodeError).1).2.1.cache_timestamp = 10 :=
  C5_amended 10 (StatusRun.ok exStatus) (initState StatusRun.jsonDecodeError).1
    (by decide) (by decide)

/-- Claim C7: with a fresh cache of `n` nodes and a positive `limit`,
`render` with an empty or absent query returns the first
`min limit (n + 1)` candidates in construction order, the synthetic
status row always first. -/
theorem C7_empty_query (limit : Int) (query : Option String) (now : Int)
    (run : StatusRun) (s : ExtState)
    (hq : query = none ∨ query = some "")
    (hl : 0 < limit)
    (hfresh : now - s.cache_timestamp < s.cache_duration) :
    (render limit query now run s).1 =
      (statusItem s.online query :: s.cache_nodes.map nodeItem).take limit.toNat ∧
    (render limit query now run s).1.length =
      min limit.toNat (s.cache_nodes.length + 1) ∧
    (render limit query now run s).1.head? = some (statusItem s.online query) := by
  have hall : renderAll query now run s =
      statusItem s.online query :: s.cache_nodes.map nodeItem := by
    unfold renderAll list_nodes
    rw [if_pos hfresh]
  have hpool : renderPool query now run s =
      statusItem s.online query :: s.cache_nodes.map nodeItem := by
    rcases hq with h | h <;> subst h <;> simp [renderPool, hall]
  have hitems : (render limit query now run s).1 =
      pySliceTo limit (renderPool query now run s) := rfl
  rw [hitems, hpool]
  unfold pySliceTo
  rw [if_pos (by omega)]
  obtain ⟨m, hm⟩ : ∃ m, limit.toNat = m + 1 := ⟨limit.toNat - 1, by omega⟩
  refine ⟨rfl, ?_, ?_⟩
  · rw [List.length_take, List.length_cons, List.length_map]
  · rw [hm]
    rfl

theorem C7_empty_query_witness :
    (render 3 none 100 StatusRun.calledProcessError exFiveState).1.length = 3 ∧
    (render 3 none 100 StatusRun.calledProcessError exFiveState).1.head? =
      some (statusItem exFiveState.online none) := by
  have h := C7_empty_query 3 none 100 StatusRun.calledProcessError exFiveState
    (Or.inl rfl) (by decide) (by decide)
  refine ⟨?_, h.2.2⟩
  rw [h.2.1]
  decide

/-- Claim C1: while `now - fetched_at < ttl`, two `list_nodes` calls at
the same clock return identical-by-value node sequences and invoke the
external status fetch at most once (in fact not at all); and whenever
`now - fetched_at ≥ ttl`, one `list_nodes` call performs exactly one
external fetch, replaces the cached sequence wholesale with the freshly
fetched one and sets the cache timestamp to `now`. -/
theorem C1_cache_ttl (s : ExtState) (now : Int) (r1 r2 r3 : StatusRun) :
    (now - s.cache_timestamp < s.cache_duration →
      (list_nodes now r1 s).1 = (list_nodes now r2 (list_nodes now r1 s).2.1).1 ∧
      ((list_nodes now r1 s).2.2 ++
        (list_nodes now r2 (list_nodes now r1 s).2.1).2.2).count Cmd.statusJson ≤ 1) ∧
    (s.cache_duration ≤ now - s.cache_timestamp →
      (list_nodes now r3 s).2.2.count Cmd.statusJson = 1 ∧
      (list_nodes now r3 s).2.1.cache_nodes = (_list_nodes r3 s).1 ∧
      (list_nodes now r3 s).1 = (_list_nodes r3 s).1 ∧
      (list_nodes now r3 s).2.1.cache_timestamp = now) := by
  constructor
  · intro h
    have h1 : list_nodes now r1 s = (s.cache_nodes, s, []) := by
      unfold list_nodes
      rw [if_pos h]
    have h2 : list_nodes now r2 s = (s.cache_nodes, s, []) := by
      unfold list_nodes
      rw [if_pos h]
    simp only [h1, h2]
    exact ⟨trivial, by decide⟩
  · intro h
    unfold list_nodes
    rw [if_neg (by omega)]
    refine ⟨?_, rfl, rfl, rfl⟩
    cases r3 <;> rfl

theorem C1_cache_ttl_witness :
    ((list_nodes 100 StatusRun.jsonDecodeError exFreshState).1 =
      (list_nodes 100 (StatusRun.ok exStatus)
        (list_nodes 100 StatusRun.jsonDecodeError exFreshState).2.1).1 ∧
      ((list_nodes 100 StatusRun.jsonDecodeError exFreshState).2.2 ++
        (list_nodes 100 (StatusRun.ok exStatus)
          (list_nodes 100 StatusRun.jsonDecodeError exFreshState).2.1).2.2).count
        Cmd.statusJson ≤ 1) ∧
    ((list_nodes 100 (StatusRun.ok exStatus) exStaleState).2.2.count
        Cmd.statusJson = 1 ∧
      (list_nodes 100 (StatusRun.ok exStatus) exStaleState).2.1.cache_nodes =
        (_list_nodes (StatusRun.ok exStatus) exStaleState).1 ∧
      (list_nodes 100 (StatusRun.ok exStatus) exStaleState).1 =
        (_list_nodes (StatusRun.ok exStatus) exStaleState).1 ∧
      (list_nodes 100 (StatusRun.ok exStatus) exStaleState).2.1.cache_timestamp =
        100) :=
  ⟨(C1_cache_ttl exFreshState 100 StatusRun.jsonDecodeError (StatusRun.ok exStatus)
      StatusRun.calledProcessError).1 (by decide),
   (C1_cache_ttl exStaleState 100 StatusRun.jsonDecodeError StatusRun.jsonDecodeError
      (StatusRun.ok exStatus)).2 (by decide)⟩

/-- Claim C3 counterexample: with the binary missing, the up/down
invocation raises `FileNotFoundError`, which `handle_toggle_action` does
not catch (its `except` clause names only `CalledProcessError`), so an
exception escapes the toggle operation: the claim that every error of the
toggled command is swallowed is false. -/
theorem C3_counterexample :
    (handle_toggle_action 9 none CmdRun.fileNotFoundError
        StatusRun.calledProcessError 101 StatusRun.calledProcessError
        exFreshState).1 = Except.error PyError.fileNotFoundError := rfl

/-- Claim C3 amended: the toggle invokes the down command exactly once and
no up command when currently online, and the up command exactly once and
no down command when currently offline; a non-zero exit
(`CalledProcessError`) of the toggled command is swallowed, but a missing
binary (`FileNotFoundError`) propagates out of the toggle operation. -/
theorem C3_amended (cmdRun : CmdRun) (statusRun : StatusRun) (s : ExtState) :
    (s.online = true →
      (toggleStep cmdRun statusRun s).2.count Cmd.down = 1 ∧
      (toggleStep cmdRun statusRun s).2.count Cmd.up = 0) ∧
    (s.online = false →
      (toggleStep cmdRun statusRun s).2.count Cmd.up = 1 ∧
      (toggleStep cmdRun statusRun s).2.count Cmd.down = 0) ∧
    (cmdRun = CmdRun.calledProcessError →
      (toggleStep cmdRun statusRun s).1 =
        Except.ok (check_online statusRun s).2.1) ∧
    (cmdRun = CmdRun.fileNotFoundError →
      (toggleStep cmdRun statusRun s).1 =
        Except.error PyError.fileNotFoundError) := by
  refine ⟨?_, ?_, ?_, ?_⟩
  · intro hon
    cases cmdRun <;> cases statusRun <;> simp [toggleStep, check_online, hon]
  · intro hon
    cases cmdRun <;> cases statusRun <;> simp [toggleStep, check_online, hon]
  · intro hc
    subst hc
    rfl
  · intro hc
    subst hc
    rfl

theorem C3_amended_witness :
    ((toggleStep CmdRun.calledProcessError StatusRun.jsonDecodeError
        exFreshState).2.count Cmd.down = 1 ∧
      (toggleStep CmdRun.calledProcessError StatusRun.jsonDecodeError
        exFreshState).2.count Cmd.up = 0) ∧
    ((toggleStep CmdRun.ok StatusRun.jsonDecodeError
        exStaleState).2.count Cmd.up = 1 ∧
      (toggleStep CmdRun.ok StatusRun.jsonDecodeError
        exStaleState).2.count Cmd.down = 0) ∧
    (toggleStep CmdRun.calledProcessError StatusRun.jsonDecodeError
        exFreshState).1 =
      Except.ok (check_online StatusRun.jsonDecodeError exFreshState).2.1 ∧
    (toggleStep CmdRun.fileNotFoundError StatusRun.jsonDecodeError
        exStaleState).1 = Except.error PyError.fileNotFoundError :=
  ⟨(C3_amended CmdRun.calledProcessError StatusRun.jsonDecodeError
      exFreshState).1 (by decide),
   (C3_amended CmdRun.ok StatusRun.jsonDecodeError exStaleState).2.1 (by decide),
   (C3_amended CmdRun.calledProcessError StatusRun.jsonDecodeError
      exFreshState).2.2.1 rfl,
   (C3_amended CmdRun.fileNotFoundError StatusRun.jsonDecodeError
      exStaleState).2.2.2 rfl⟩

/-- Claim C6: for every non-empty query, `render` keeps exactly those
candidates whose keyword contains the query as an in-order (not
necessarily contiguous) subsequence — the matcher being the spec-modelled
stand-in for the external `fuzzyfinder` library — truncated to `limit`. -/
theorem C6_fuzzy_query (q : String) (limit : Int) (now : Int)
    (run : StatusRun) (s : ExtState) (hq : q ≠ "") :
    (render limit (some q) now run s).1 =
      pySliceTo limit (fuzzyfinder q (renderAll (some q) now run s)) ∧
    (∀ it, it ∈ fuzzyfinder q (renderAll (some q) now run s) ↔
      it ∈ renderAll (some q) now run s ∧
        isSubseqChars q.toList it.keyword.toList = true) := by
  constructor
  · show pySliceTo limit (renderPool (some q) now run s) = _
    have hpool : renderPool (some q) now run s =
        fuzzyfinder q (renderAll (some q) now run s) := by
      simp [renderPool, hq]
    rw [hpool]
  · intro it
    exact mem_fuzzyfinder q _ it

theorem C6_fuzzy_query_witness :
    ((render 9 (some "nas") 100 StatusRun.calledProcessError exFreshState).1 =
      pySliceTo 9 (fuzzyfinder "nas"
        (renderAll (some "nas") 100 StatusRun.calledProcessError exFreshState))) ∧
    (render 9 (some "nas") 100 StatusRun.calledProcessError exFreshState).1 =
      [nodeItem exNodeNas] :=
  ⟨(C6_fuzzy_query "nas" 9 100 StatusRun.calledProcessError exFreshState
      (by decide)).1,
   by decide⟩

/-- Claim C9 counterexample: `render` never invokes a separate status
check — with a fresh node cache it performs no status invocation at all
and leaves the online flag untouched, even when a check would have
reported the host online.  This refutes "before every render, the
self-online flag is refreshed by a separate, uncached status check". -/
theorem C9_counterexample :
    (render 9 none 100 (StatusRun.ok exStatus) exFreshOffState).2.2 = [] ∧
    (render 9 none 100 (StatusRun.ok exStatus) exFreshOffState).2.1.online =
      false := by decide

/-- Claim C9 amended: after every toggle whose up/down invocation does not
raise `FileNotFoundError`, the online flag is refreshed by a dedicated
`check_online` invocation (exactly one status call, independent of the
node cache and its TTL); a render, however, refreshes the flag only as a
side effect of a node-cache refetch — with a fresh cache it performs no
status check and the flag keeps its previous value. -/
theorem C9_amended (cmdRun : CmdRun) (statusRun : StatusRun) (s : ExtState)
    (limit : Int) (query : Option String) (now : Int) (run : StatusRun) :
    (cmdRun ≠ CmdRun.fileNotFoundError →
      (toggleStep cmdRun statusRun s).2.count Cmd.statusJson = 1 ∧
      (toggleStep cmdRun statusRun s).1 =
        Except.ok (check_online statusRun s).2.1) ∧
    (now - s.cache_timestamp < s.cache_duration →
      (render limit query now run s).2.2.count Cmd.statusJson = 0 ∧
      (render limit query now run s).2.1.online = s.online) := by
  constructor
  · intro hc
    cases cmdRun with
    | fileNotFoundError => exact absurd rfl hc
    | ok =>
        cases hon : s.online <;> cases statusRun <;>
          simp [toggleStep, check_online, hon]
    | calledProcessError =>
        cases hon : s.online <;> cases statusRun <;>
          simp [toggleStep, check_online, hon]
  · intro hfresh
    have hr : list_nodes now run s = (s.cache_nodes, s, []) := by
      unfold list_nodes
      rw [if_pos hfresh]
    constructor
    · show (list_nodes now run s).2.2.count Cmd.statusJson = 0
      rw [hr]
      rfl
    · show (list_nodes now run s).2.1.online = s.online
      rw [hr]

theorem C9_amended_witness :
    ((toggleStep CmdRun.ok (StatusRun.ok exStatus)
        exFreshOffState).2.count Cmd.statusJson = 1 ∧
      (toggleStep CmdRun.ok (StatusRun.ok exStatus) exFreshOffState).1 =
        Except.ok (check_online (StatusRun.ok exStatus) exFreshOffState).2.1) ∧
    ((render 9 none 100 StatusRun.jsonDecodeError
        exFreshOffState).2.2.count Cmd.statusJson = 0 ∧
      (render 9 none 100 StatusRun.jsonDecodeError
        exFreshOffState).2.1.online = exFreshOffState.online) :=
  ⟨(C9_amended CmdRun.ok (StatusRun.ok exStatus) exFreshOffState 9 none 100
      StatusRun.jsonDecodeError).1 (fun h => CmdRun.noConfusion h),
   (C9_amended CmdRun.ok (StatusRun.ok exStatus) exFreshOffState 9 none 100
      StatusRun.jsonDecodeError).2 (by decide)⟩

/-- Claim C10: the toggle step (the up/down command, the settle sleep and
the `check_online` refresh) leaves the node cache untouched: whenever it
completes without an escaping exception, the cached node sequence, its
timestamp and the TTL are unchanged — only the online flag may change.
Consequently, when the re-render inside `handle_toggle_action` finds the
cache still fresh, it serves the pre-toggle cached nodes, which can be up
to `ttl` time units stale. -/
theorem C10_toggle_frame (cmdRun : CmdRun) (statusRun : StatusRun)
    (s : ExtState) (now : Int) (run : StatusRun) :
    (∀ s1, (toggleStep cmdRun statusRun s).1 = Except.ok s1 →
      s1.cache_nodes = s.cache_nodes ∧
      s1.cache_timestamp = s.cache_timestamp ∧
      s1.cache_duration = s.cache_duration) ∧
    (∀ s1, (toggleStep cmdRun statusRun s).1 = Except.ok s1 →
      now - s.cache_timestamp < s.cache_duration →
      (list_nodes now run s1).1 = s.cache_nodes ∧
      (list_nodes now run s1).2.2 = []) := by
  have hco : (check_online statusRun s).2.1.cache_nodes = s.cache_nodes ∧
      (check_online statusRun s).2.1.cache_timestamp = s.cache_timestamp ∧
      (check_online statusRun s).2.1.cache_duration = s.cache_duration := by
    cases statusRun <;> exact ⟨rfl, rfl, rfl⟩
  have hok : ∀ s1, (toggleStep cmdRun statusRun s).1 = Except.ok s1 →
      s1 = (check_online statusRun s).2.1 := by
    intro s1 h
    cases cmdRun with
    | fileNotFoundError => simp [toggleStep] at h
    | ok =>
        simp only [toggleStep, Except.ok.injEq] at h
        exact h.symm
    | calledProcessError =>
        simp only [toggleStep, Except.ok.injEq] at h
        exact h.symm
  constructor
  · intro s1 h
    rw [hok s1 h]
    exact hco
  · intro s1 h hfresh
    have he := hok s1 h
    have hts : s1.cache_timestamp = s.cache_timestamp := by
      rw [he]
      exact hco.2.1
    have hdur : s1.cache_duration = s.cache_duration := by
      rw [he]
      exact hco.2.2
    have hcn : s1.cache_nodes = s.cache_nodes := by
      rw [he]
      exact hco.1
    unfold list_nodes
    rw [hts, hdur, if_pos hfresh]
    exact ⟨hcn, rfl⟩

theorem C10_toggle_frame_witness :
    ((toggleStep CmdRun.calledProcessError StatusRun.jsonDecodeError
        exFreshState).1 = Except.ok exFreshState) ∧
    (list_nodes 100 StatusRun.jsonDecodeError exFreshState).1 =
      exFreshState.cache_nodes ∧
    (list_nodes 100 StatusRun.jsonDecodeError exFreshState).2.2 = [] :=
  ⟨rfl,
   (C10_toggle_frame CmdRun.calledProcessError StatusRun.jsonDecodeError
      exFreshState 100 StatusRun.jsonDecodeError).2 exFreshState rfl
      (by decide)⟩
